import Mathlib

/-!
Shallow embedding of the local_library catalog code
(src/models/bookinstance.js: the BookInstance schema, the book controller
and the genre controller).

Modelling conventions:
- MongoDB ObjectId values are opaque strings usable in URL paths, so ids
  are `String` here; `findById`, `findOne` and filter queries become
  `List.find?` / `List.filter` over the store's collections.
- express-validator's `body(f, msg).trim().isLength({min: 1}).escape()`
  chain is modelled field by field: the value is trimmed, the length
  check runs on the trimmed value, and the stored/rendered value is the
  escaped trimmed value.  Validation errors carry the field path and the
  message string exactly as written in the source.
- ObjectId-valued submitted fields (`genre.*`) are escaped by the source
  too; escaping is applied in the model as well (on hex id strings it is
  the identity).  Mongoose array `indexOf` compares ObjectIds by value,
  so the checked-mark scan becomes list membership.
- Each handler is a pure function from the store (and the request, plus
  the fresh id mongoose would allocate on `new Model(...)`) to the new
  store and a response value; `res.render` / `res.redirect` become
  constructors of a per-handler response type.
-/

namespace LocalLibrary

/-- One field-level validation error as express-validator records it:
the body path that failed and the message given to `body(path, msg)`. -/
structure VError where
  path : String
  msg : String
deriving Repr, DecidableEq

/-- validator.js `escape()`: replace `&`, `<`, `>`, `"`, `'`, `/`,
backslash and backtick by their HTML entities (characters given by code
point to keep the source text plain). -/
def escapeChar (c : Char) : String :=
  if c = '&' then "&amp;"
  else if c = '<' then "&lt;"
  else if c = '>' then "&gt;"
  else if c = '"' then "&quot;"
  else if c = Char.ofNat 39 then "&#x27;"
  else if c = '/' then "&#x2F;"
  else if c = Char.ofNat 92 then "&#x5C;"
  else if c = Char.ofNat 96 then "&#96;"
  else String.singleton c

/-- `escape()` over a whole string. -/
def escape (s : String) : String :=
  String.join (s.data.map escapeChar)

/-- Whitespace stripped from both ends of a character list. -/
def trimChars (cs : List Char) : List Char :=
  ((cs.dropWhile Char.isWhitespace).reverse.dropWhile Char.isWhitespace).reverse

/-- JS `String.prototype.trim()` (the validator's `.trim()` sanitizer):
whitespace removed from both ends. -/
def jsTrim (s : String) : String :=
  String.mk (trimChars s.data)

/-- The `.trim().isLength({min: 1})` check of one required field:
a single error with the given message when the field is empty after
trimming, no error otherwise. -/
def checkRequired (path value msg : String) : List VError :=
  if jsTrim value = "" then [{ path := path, msg := msg }] else []

/-- Genre document (src/models/genre.js is not in the staged sources;
fields follow the spec's data model: `name`, required). -/
structure Genre where
  _id : String
  name : String
deriving Repr, DecidableEq

/-- Author document (only its presence in reference lists and counts
matters to the staged controllers). -/
structure Author where
  _id : String
  first_name : String
  family_name : String
deriving Repr, DecidableEq

/-- Book document: title, author reference, summary, isbn, and a list of
Genre references. -/
structure Book where
  _id : String
  title : String
  author : String
  summary : String
  isbn : String
  genre : List String
deriving Repr, DecidableEq

/-- The BookInstance `status` enumeration from the schema:
`['Available', 'Maintenance', 'Loaned', 'Reserved']`. -/
inductive BIStatus where
  | Available
  | Maintenance
  | Loaned
  | Reserved
deriving Repr, DecidableEq

/-- A JS `Date` as the `due_back_yyyy_mm_dd` virtual reads it:
`getFullYear()`, zero-based `getMonth()` and `getDate()`. -/
structure JsDate where
  year : Nat
  month0 : Nat
  day : Nat
deriving Repr, DecidableEq

/-- BookInstance document from the schema in src/models/bookinstance.js. -/
structure BookInstance where
  _id : String
  book : String
  imprint : String
  status : BIStatus
  due_back : JsDate
deriving Repr, DecidableEq

/-- The entity store: the four collections. -/
structure Store where
  books : List Book
  authors : List Author
  genres : List Genre
  bookinstances : List BookInstance
deriving Repr, DecidableEq

/-- Modelled from the spec: the Genre model file is not under src/; its
derived URL path is computed from the identifier, by analogy with the
BookInstance `url` virtual (`/catalog/bookinstance/${this._id}`). -/
def Genre.url (g : Genre) : String :=
  "/catalog/genre/" ++ g._id

/-- Modelled from the spec: the Book model file is not under src/; its
derived URL path is computed from the identifier, by analogy with the
BookInstance `url` virtual. -/
def Book.url (b : Book) : String :=
  "/catalog/book/" ++ b._id

/-- `Book.find({ genre: id })`: the Books whose genre set contains the
identifier. -/
def booksWithGenre (s : Store) (gid : String) : List Book :=
  s.books.filter (fun b => b.genre.contains gid)

/-- `Genre.findById(id)` over the store. -/
def findGenre (s : Store) (gid : String) : Option Genre :=
  s.genres.find? (fun g => g._id = gid)

/-- `Book.findById(id)` over the store. -/
def findBook (s : Store) (bid : String) : Option Book :=
  s.books.find? (fun b => b._id = bid)

/-! ## Home summary (`exports.index`) -/

/-- The five counts the home summary renders (the `results` object of the
`async.parallel` in `exports.index`). -/
structure IndexCounts where
  book_count : Nat
  book_instance_count : Nat
  book_instance_available_count : Nat
  author_count : Nat
  genre_count : Nat
deriving Repr, DecidableEq

/-- `exports.index`: count all documents of the four collections plus the
BookInstances with `status: 'Available'`. -/
def index (s : Store) : IndexCounts :=
  { book_count := s.books.length
  , book_instance_count := s.bookinstances.length
  , book_instance_available_count :=
      (s.bookinstances.filter (fun bi => bi.status = BIStatus.Available)).length
  , author_count := s.authors.length
  , genre_count := s.genres.length }

/-- The counts as the flat list of numbers handed to the view. -/
def IndexCounts.asList (c : IndexCounts) : List Nat :=
  [ c.book_count, c.book_instance_count, c.book_instance_available_count
  , c.author_count, c.genre_count ]

/-! ## BookInstance date virtual (`due_back_yyyy_mm_dd`) -/

/-- The `due_back_yyyy_mm_dd` virtual: `getFullYear()`, `getMonth() + 1`
zero-padded when under 10, `getDate()` unpadded, joined by hyphens. -/
def due_back_yyyy_mm_dd (d : JsDate) : String :=
  let year := d.year
  let month := d.month0 + 1
  let monthStr := if month < 10 then "0" ++ toString month else toString month
  let day := d.day
  toString year ++ "-" ++ monthStr ++ "-" ++ toString day

/-- The month component of the machine-sortable date string, as the spec
describes it: zero-padded to two digits exactly when the month is under
10. -/
def specMonthComponent (month : Nat) : String :=
  if month < 10 then "0" ++ toString month else toString month

/-- The machine-sortable date string as the spec describes it: year,
month and day joined by hyphens, the month zero-padded when under 10,
the day never padded. -/
def specDateString (year month day : Nat) : String :=
  toString year ++ "-" ++ specMonthComponent month ++ "-" ++ toString day

/-! ## Genre create (`exports.genre_create_post`) -/

/-- Response of the Genre create POST handler. -/
inductive GenreCreateRes where
  | renderForm (genre : Genre) (errors : List VError)
  | redirect (url : String)
deriving Repr, DecidableEq

/-- `exports.genre_create_post`: validate/sanitize `name`; on error
re-render the form with the sanitized genre and the errors; otherwise
`Genre.findOne({ name })` and either redirect to the found genre's url
or save the new genre and redirect to its url.  `freshId` is the id
mongoose allocates at `new Genre(...)`. -/
def genre_create_post (s : Store) (freshId : String) (body_name : String) :
    Store × GenreCreateRes :=
  let name := escape (jsTrim body_name)
  let errors := checkRequired "name" body_name "Genre name required"
  let genre : Genre := { _id := freshId, name := name }
  if errors.isEmpty then
    match s.genres.find? (fun g => g.name = name) with
    | some found_genre => (s, GenreCreateRes.redirect found_genre.url)
    | none =>
        ({ s with genres := s.genres ++ [genre] }, GenreCreateRes.redirect genre.url)
  else
    (s, GenreCreateRes.renderForm genre errors)

/-! ## Genre update (`exports.genre_update_post`) -/

/-- Response of the Genre update POST handler. -/
inductive GenreUpdateRes where
  | renderForm (genre : Genre) (errors : List VError)
  | redirect (url : String)
deriving Repr, DecidableEq

/-- `exports.genre_update_post`: validate/sanitize `name`; build the
genre with the old `_id` from the URL params; on error re-render the
form, otherwise `Genre.findByIdAndUpdate(req.params.id, genre)` and
redirect to `genre.url`. -/
def genre_update_post (s : Store) (params_id body_name : String) :
    Store × GenreUpdateRes :=
  let name := escape (jsTrim body_name)
  let errors := checkRequired "name" body_name "Genre name required"
  let genre : Genre := { _id := params_id, name := name }
  if errors.isEmpty then
    ({ s with genres := s.genres.map (fun g => if g._id = params_id then genre else g) },
     GenreUpdateRes.redirect genre.url)
  else
    (s, GenreUpdateRes.renderForm genre errors)

/-! ## Genre delete (`exports.genre_delete_get`, `exports.genre_delete_post`) -/

/-- One response action of the Genre delete GET handler.  The handler can
issue more than one (its missing-return bug), so its result is a list of
these. -/
inductive DeleteAction where
  | redirect (url : String)
  | renderDelete (genre : Option Genre) (books : List Book)
deriving Repr, DecidableEq

/-- `exports.genre_delete_get`: fetch the genre and the books referencing
it; when the genre is null, `res.redirect('/catalog/genres')` — without a
`return`, so control falls through and `res.render('genre_delete', ...)`
still runs.  The returned list records every response call, in order. -/
def genre_delete_get (s : Store) (params_id : String) : List DeleteAction :=
  let genre := findGenre s params_id
  let books := booksWithGenre s params_id
  (if genre.isNone then [DeleteAction.redirect "/catalog/genres"] else [])
    ++ [DeleteAction.renderDelete genre books]

/-- Response of the Genre delete POST handler. -/
inductive GenreDeleteRes where
  | renderDelete (genre : Option Genre) (books : List Book)
  | redirect (url : String)
deriving Repr, DecidableEq

/-- `exports.genre_delete_post`: fetch the genre at `req.params.id` and
the books referencing `req.params.id`; if any exist, re-render the
confirmation view; otherwise `Genre.findByIdAndRemove(req.body.genreid)`
— the id removed comes from the request BODY, the pre-check used the URL
params id — and redirect to the genre list. -/
def genre_delete_post (s : Store) (params_id body_genreid : String) :
    Store × GenreDeleteRes :=
  let genre := findGenre s params_id
  let books := booksWithGenre s params_id
  if books.length > 0 then
    (s, GenreDeleteRes.renderDelete genre books)
  else
    ({ s with genres := s.genres.filter (fun g => g._id ≠ body_genreid) },
     GenreDeleteRes.redirect "/catalog/genres")

/-- A sequence of Genre delete POST requests applied to the store
(each request is a URL params id paired with a body genreid). -/
def applyGenreDeletes (s : Store) (reqs : List (String × String)) : Store :=
  reqs.foldl (fun st r => (genre_delete_post st r.1 r.2).1) s

/-! ## Book create / update (`exports.book_create_post`, `exports.book_update_post`) -/

/-- The submitted `genre` body field before the normalization middleware:
absent, a single value, or already an array. -/
inductive GenreField where
  | absent
  | one (v : String)
  | many (vs : List String)
deriving Repr, DecidableEq

/-- The first middleware of both book POST handlers: absent becomes `[]`,
a single value becomes a one-element array, an array stays. -/
def normalizeGenre : GenreField → List String
  | GenreField.absent => []
  | GenreField.one v => [v]
  | GenreField.many vs => vs

/-- The submitted body of a book create/update POST. -/
structure BookBody where
  title : String
  author : String
  summary : String
  isbn : String
  genre : GenreField
deriving Repr, DecidableEq

/-- A genre entry of the re-rendered form: the genre plus its checkbox
state (`results.genres[i].checked = 'true'` when set). -/
structure CheckedGenre where
  genre : Genre
  checked : Bool
deriving Repr, DecidableEq

/-- The checked-mark scan of both book POST error branches:
`book.genre.indexOf(results.genres[i]._id) > -1` (mongoose array
`indexOf` compares ObjectIds by value, hence list membership). -/
def markChecked (genres : List Genre) (selected : List String) : List CheckedGenre :=
  genres.map (fun g => { genre := g, checked := selected.contains g._id })

/-- The four required-field checks of `book_create_post`, messages as in
the source (title and author carry a trailing period there). -/
def bookCreateErrors (b : BookBody) : List VError :=
  checkRequired "title" b.title "Title must not be empty."
    ++ checkRequired "author" b.author "Author must not be empty."
    ++ checkRequired "summary" b.summary "Summary must not be empty"
    ++ checkRequired "isbn" b.isbn "ISBN must not be empty"

/-- The four required-field checks of `book_update_post`, messages as in
the source (no trailing periods there). -/
def bookUpdateErrors (b : BookBody) : List VError :=
  checkRequired "title" b.title "Title must not be empty"
    ++ checkRequired "author" b.author "Author must not be empty"
    ++ checkRequired "summary" b.summary "Summary must not be empty"
    ++ checkRequired "isbn" b.isbn "ISBN must not be empty"

/-- The Book built from the sanitized body fields with the given id. -/
def sanitizedBook (bid : String) (b : BookBody) : Book :=
  { _id := bid
  , title := escape (jsTrim b.title)
  , author := escape (jsTrim b.author)
  , summary := escape (jsTrim b.summary)
  , isbn := escape (jsTrim b.isbn)
  , genre := (normalizeGenre b.genre).map escape }

/-- Response of the Book create POST handler. -/
inductive BookCreateRes where
  | renderForm (authors : List Author) (genres : List CheckedGenre)
      (book : Book) (errors : List VError)
  | redirect (url : String)
deriving Repr, DecidableEq

/-- `exports.book_create_post`: normalize `genre`, validate/sanitize the
fields, build the Book; on errors re-fetch authors and genres, mark the
selected genres checked and re-render the form; otherwise save the book
and redirect to its url.  `freshId` is the id mongoose allocates at
`new Book(...)`. -/
def book_create_post (s : Store) (freshId : String) (b : BookBody) :
    Store × BookCreateRes :=
  let errors := bookCreateErrors b
  let book := sanitizedBook freshId b
  if errors.isEmpty then
    ({ s with books := s.books ++ [book] }, BookCreateRes.redirect book.url)
  else
    (s, BookCreateRes.renderForm s.authors (markChecked s.genres book.genre) book errors)

/-- Response of the Book update POST handler.  `nullUrlDeref` records the
success callback reading `.url` off the null result that
`Book.findByIdAndUpdate` yields for an id absent from the store. -/
inductive BookUpdateRes where
  | renderForm (authors : List Author) (genres : List CheckedGenre)
      (book : Book) (errors : List VError)
  | redirect (url : String)
  | nullUrlDeref
deriving Repr, DecidableEq

/-- `exports.book_update_post`: like create, but the Book keeps the old
`_id` from the URL params; on success `Book.findByIdAndUpdate` replaces
the stored document and returns the old one, whose `url` the callback
reads for the redirect — reading it off null when the id is absent. -/
def book_update_post (s : Store) (params_id : String) (b : BookBody) :
    Store × BookUpdateRes :=
  let errors := bookUpdateErrors b
  let book := sanitizedBook params_id b
  if errors.isEmpty then
    match findBook s params_id with
    | some old =>
        ({ s with books := s.books.map (fun b0 => if b0._id = params_id then book else b0) },
         BookUpdateRes.redirect old.url)
    | none => (s, BookUpdateRes.nullUrlDeref)
  else
    (s, BookUpdateRes.renderForm s.authors (markChecked s.genres book.genre) book errors)

/-! ## Result projections used by the statements -/

/-- Whether a Book create response re-renders the form. -/
def BookCreateRes.isRenderForm : BookCreateRes → Bool
  | BookCreateRes.renderForm _ _ _ _ => true
  | _ => false

/-- The error list a Book create response carries. -/
def BookCreateRes.errorList : BookCreateRes → List VError
  | BookCreateRes.renderForm _ _ _ errs => errs
  | _ => []

/-- Whether a Book update response re-renders the form. -/
def BookUpdateRes.isRenderForm : BookUpdateRes → Bool
  | BookUpdateRes.renderForm _ _ _ _ => true
  | _ => false

/-- The error list a Book update response carries. -/
def BookUpdateRes.errorList : BookUpdateRes → List VError
  | BookUpdateRes.renderForm _ _ _ errs => errs
  | _ => []

/-- Whether a Genre create response re-renders the form. -/
def GenreCreateRes.isRenderForm : GenreCreateRes → Bool
  | GenreCreateRes.renderForm _ _ => true
  | _ => false

/-- The error list a Genre create response carries. -/
def GenreCreateRes.errorList : GenreCreateRes → List VError
  | GenreCreateRes.renderForm _ errs => errs
  | _ => []

/-- Whether a Genre update response re-renders the form. -/
def GenreUpdateRes.isRenderForm : GenreUpdateRes → Bool
  | GenreUpdateRes.renderForm _ _ => true
  | _ => false

/-- The error list a Genre update response carries. -/
def GenreUpdateRes.errorList : GenreUpdateRes → List VError
  | GenreUpdateRes.renderForm _ errs => errs
  | _ => []

/-- Whether the error list has an entry for the given field path. -/
def hasFieldError (errs : List VError) (f : String) : Bool :=
  errs.any (fun e => e.path = f)

/-- One of the body fields of a book POST, by field path. -/
def BookBody.field (b : BookBody) (f : String) : String :=
  if f = "title" then b.title
  else if f = "author" then b.author
  else if f = "summary" then b.summary
  else if f = "isbn" then b.isbn
  else ""

/-! ## Concrete sample data for witnesses and counterexamples -/

/-- A small store: one Book `b1` referencing Genre `g2`, one Author, two
Genres. -/
def sampleStore : Store :=
  { books := [{ _id := "b1", title := "T", author := "a1", summary := "S"
              , isbn := "I", genre := ["g2"] }]
  , authors := [{ _id := "a1", first_name := "Jane", family_name := "Doe" }]
  , genres := [{ _id := "g1", name := "Poetry" }, { _id := "g2", name := "Fantasy" }]
  , bookinstances := [] }

/-- The empty store. -/
def emptyStore : Store :=
  { books := [], authors := [], genres := [], bookinstances := [] }

/-- A book body whose four required fields are all non-empty. -/
def validBody : BookBody :=
  { title := "New Title", author := "a1", summary := "Sum", isbn := "123"
  , genre := GenreField.many ["g1"] }

/-- A book body whose title is blank after trimming. -/
def blankTitleBody : BookBody :=
  { title := "  ", author := "a1", summary := "S", isbn := "I"
  , genre := GenreField.one "g2" }

/-! ## Helper lemmas -/

theorem isEmpty_false_of_mem {α : Type} {a : α} {l : List α} (h : a ∈ l) :
    l.isEmpty = false := by
  cases l with
  | nil => cases h
  | cons hd tl => rfl

theorem toString_length_lt_ten (n : Nat) (h : n < 10) : (toString n).length = 1 := by
  interval_cases n <;> rfl

theorem genre_delete_post_books_eq (s : Store) (pid bid : String) :
    (genre_delete_post s pid bid).1.books = s.books := by
  by_cases h : (booksWithGenre s pid).length > 0 <;> simp [genre_delete_post, h]

theorem booksWithGenre_delete_post (s : Store) (pid bid gid : String) :
    booksWithGenre (genre_delete_post s pid bid).1 gid = booksWithGenre s gid := by
  unfold booksWithGenre
  rw [genre_delete_post_books_eq]

theorem genre_delete_post_keeps_referenced (s : Store) (pid : String)
    (g : Genre) (hg : g ∈ s.genres) (hb : 0 < (booksWithGenre s g._id).length) :
    g ∈ (genre_delete_post s pid pid).1.genres := by
  unfold genre_delete_post
  by_cases h : (booksWithGenre s pid).length > 0
  · simp only [h, if_pos]
    exact hg
  · simp only [h, if_neg, not_false_eq_true]
    refine List.mem_filter.mpr ⟨hg, ?_⟩
    have hne : g._id ≠ pid := by
      intro heq
      exact h (heq ▸ hb)
    simp [hne]

/-! ## Claim theorems -/

/-- Claim C7 (code bug evidence): on a store where the identifier
resolves to no Genre, `genre_delete_get` issues the redirect to the
genre listing AND then still renders the confirmation view (the missing
`return` after `res.redirect`), with a null genre. -/
theorem genre_delete_get_missing_redirects_then_renders :
    genre_delete_get emptyStore "g1"
      = [DeleteAction.redirect "/catalog/genres", DeleteAction.renderDelete none []] := by
  decide

/-- Claim C8: for every store state, the home summary renders exactly
five numeric counts, and the count of Available BookInstances is at most
the count of all BookInstances. -/
theorem index_five_counts_available_le_total (s : Store) :
    ((index s).asList).length = 5
    ∧ (index s).book_instance_available_count ≤ (index s).book_instance_count := by
  refine ⟨rfl, ?_⟩
  simpa [index] using
    List.length_filter_le (fun bi => decide (bi.status = BIStatus.Available)) s.bookinstances

/-- Claim C9: the machine-sortable date string equals year, month and
day joined by hyphens, where the month component is zero-padded to two
digits exactly when the month is under 10 and the day component is the
bare number, never zero-padded (one digit when the day is under 10). -/
theorem due_back_yyyy_mm_dd_matches_spec (d : JsDate) :
    due_back_yyyy_mm_dd d = specDateString d.year (d.month0 + 1) d.day
    ∧ (d.month0 + 1 < 10 →
        specMonthComponent (d.month0 + 1) = "0" ++ toString (d.month0 + 1)
        ∧ (specMonthComponent (d.month0 + 1)).length = 2)
    ∧ (¬ d.month0 + 1 < 10 →
        specMonthComponent (d.month0 + 1) = toString (d.month0 + 1))
    ∧ (d.day < 10 → (toString d.day).length = 1) := by
  refine ⟨rfl, ?_, ?_, ?_⟩
  · intro h
    refine ⟨by simp [specMonthComponent, h], ?_⟩
    have h1 : (toString (d.month0 + 1)).length = 1 := toString_length_lt_ten _ h
    have h0 : ("0" : String).length = 1 := rfl
    simp [specMonthComponent, h, h1, h0]
  · intro h
    simp [specMonthComponent, h]
  · intro h
    exact toString_length_lt_ten _ h

/-- Claim C9 witness: the virtual at a concrete date, via the theorem. -/
theorem due_back_yyyy_mm_dd_matches_spec_witness :
    due_back_yyyy_mm_dd { year := 2020, month0 := 2, day := 5 }
      = specDateString 2020 3 5 :=
  (due_back_yyyy_mm_dd_matches_spec { year := 2020, month0 := 2, day := 5 }).1

/-- Claim C1 counterexample: with URL path identifier `g1` and request
body identifier `g2`, a single Genre delete POST removes Genre `g2` even
though Book `b1` still references it — the pre-check counts Books for
the path identifier while the removal targets the body identifier. -/
theorem genre_delete_crossid_removes_referenced :
    0 < (booksWithGenre sampleStore "g2").length
    ∧ (findGenre sampleStore "g2").isSome = true
    ∧ findGenre (applyGenreDeletes sampleStore [("g1", "g2")]) "g2" = none := by
  decide

/-- Claim C1 (amended): for every store state and every sequence of
Genre delete POST requests in which the request body identifier equals
the URL path identifier, a Genre that is referenced by at least one Book
is never removed from the store. -/
theorem genre_delete_preserves_referenced_when_ids_agree
    (s : Store) (reqs : List (String × String))
    (hids : ∀ r ∈ reqs, r.2 = r.1) :
    ∀ g ∈ s.genres, 0 < (booksWithGenre s g._id).length →
      g ∈ (applyGenreDeletes s reqs).genres := by
  induction reqs generalizing s with
  | nil =>
      intro g hg _
      simpa [applyGenreDeletes] using hg
  | cons r rs ih =>
      intro g hg hb
      have hr : r.2 = r.1 := hids r (List.mem_cons_self _ _)
      have h1 : g ∈ (genre_delete_post s r.1 r.2).1.genres := by
        rw [hr]
        exact genre_delete_post_keeps_referenced s r.1 g hg hb
      have h2 : 0 < (booksWithGenre (genre_delete_post s r.1 r.2).1 g._id).length := by
        rw [booksWithGenre_delete_post]
        exact hb
      exact ih (genre_delete_post s r.1 r.2).1
        (fun x hx => hids x (List.mem_cons_of_mem _ hx)) g h1 h2

/-- Claim C1 witness: the referenced Genre `g2` survives a delete POST
aimed at it with matching path and body identifiers. -/
theorem genre_delete_preserves_referenced_when_ids_agree_witness :
    ({ _id := "g2", name := "Fantasy" } : Genre)
      ∈ (applyGenreDeletes sampleStore [("g2", "g2")]).genres :=
  genre_delete_preserves_referenced_when_ids_agree sampleStore [("g2", "g2")]
    (by decide) { _id := "g2", name := "Fantasy" } (by decide) (by decide)

/-- Claim C2: for a Genre delete POST whose identifier (same in the URL
path and the request body) is referenced by one or more Books, the store
is left unchanged and the response renders the confirmation view with
exactly the referencing Books; with zero referencing Books the Genre is
removed (no Genre with that identifier remains), the Books are untouched
and the response redirects to the genre listing. -/
theorem genre_delete_post_contract (s : Store) (pid bid : String) (hid : bid = pid) :
    (0 < (booksWithGenre s pid).length →
        (genre_delete_post s pid bid).1 = s
        ∧ (genre_delete_post s pid bid).2
            = GenreDeleteRes.renderDelete (findGenre s pid) (booksWithGenre s pid))
    ∧ ((booksWithGenre s pid).length = 0 →
        findGenre (genre_delete_post s pid bid).1 pid = none
        ∧ (genre_delete_post s pid bid).1.books = s.books
        ∧ (genre_delete_post s pid bid).2 = GenreDeleteRes.redirect "/catalog/genres") := by
  subst hid
  constructor
  · intro h
    simp [genre_delete_post, h]
  · intro h
    have hnot : ¬ (booksWithGenre s bid).length > 0 := by omega
    refine ⟨?_, ?_, ?_⟩
    · have hstep : (genre_delete_post s bid bid).1.genres
          = s.genres.filter (fun g => g._id ≠ bid) := by
        simp [genre_delete_post, hnot]
      simp only [findGenre, hstep]
      rw [List.find?_eq_none]
      intro g hgmem
      have := (List.mem_filter.mp hgmem).2
      simp only [decide_eq_true_eq] at this ⊢
      simpa using this
    · exact genre_delete_post_books_eq s bid bid
    · simp [genre_delete_post, hnot]

/-- Claim C2 witness: Genre `g2` of the sample store is referenced by
Book `b1`, so its delete POST leaves the store unchanged and renders the
confirmation view with that Book. -/
theorem genre_delete_post_contract_witness :
    (genre_delete_post sampleStore "g2" "g2").1 = sampleStore
    ∧ (genre_delete_post sampleStore "g2" "g2").2
        = GenreDeleteRes.renderDelete (findGenre sampleStore "g2")
            (booksWithGenre sampleStore "g2") :=
  (genre_delete_post_contract sampleStore "g2" "g2" rfl).1 (by decide)

/-- Claim C3: for a Genre create POST whose name passes validation, if
the sanitized name equals the name of a Genre already in the store, no
document is created (the store is unchanged) and the response redirects
to the existing Genre's detail URL; if no stored Genre has that name, a
new Genre with the sanitized name is appended and the response redirects
to the new entity's detail URL. -/
theorem genre_create_post_idempotent_by_name (s : Store) (freshId body_name : String)
    (hvalid : ¬ jsTrim body_name = "") :
    (∀ found, s.genres.find? (fun g => g.name = escape (jsTrim body_name)) = some found →
        (genre_create_post s freshId body_name).1 = s
        ∧ (genre_create_post s freshId body_name).2 = GenreCreateRes.redirect found.url)
    ∧ (s.genres.find? (fun g => g.name = escape (jsTrim body_name)) = none →
        (genre_create_post s freshId body_name).1
            = { s with genres := s.genres ++ [{ _id := freshId, name := escape (jsTrim body_name) }] }
        ∧ (genre_create_post s freshId body_name).2
            = GenreCreateRes.redirect ("/catalog/genre/" ++ freshId)) := by
  constructor
  · intro found hf
    simp [genre_create_post, checkRequired, hvalid, hf]
  · intro hf
    simp [genre_create_post, checkRequired, hvalid, hf, Genre.url]

/-- Claim C3 witness: creating ` Fantasy ` against the sample store
(which already holds Genre `g2` named `Fantasy`) changes nothing and
redirects to `g2`'s detail URL. -/
theorem genre_create_post_idempotent_by_name_witness :
    (genre_create_post sampleStore "g9" " Fantasy ").1 = sampleStore
    ∧ (genre_create_post sampleStore "g9" " Fantasy ").2
        = GenreCreateRes.redirect (Genre.url { _id := "g2", name := "Fantasy" }) :=
  (genre_create_post_idempotent_by_name sampleStore "g9" " Fantasy " (by decide)).1
    { _id := "g2", name := "Fantasy" } (by decide)

/-! ## Error-branch helper lemmas, shared by several claims -/

theorem hasFieldError_of_mem {errs : List VError} {f m : String}
    (h : ({ path := f, msg := m } : VError) ∈ errs) : hasFieldError errs f = true := by
  simp only [hasFieldError, List.any_eq_true]
  exact ⟨_, h, by simp⟩

theorem book_create_post_error_branch (s : Store) (fid : String) (b : BookBody)
    (hne : (bookCreateErrors b).isEmpty = false) :
    book_create_post s fid b
      = (s, BookCreateRes.renderForm s.authors
            (markChecked s.genres (sanitizedBook fid b).genre)
            (sanitizedBook fid b) (bookCreateErrors b)) := by
  simp [book_create_post, hne]

theorem book_update_post_error_branch (s : Store) (pid : String) (b : BookBody)
    (hne : (bookUpdateErrors b).isEmpty = false) :
    book_update_post s pid b
      = (s, BookUpdateRes.renderForm s.authors
            (markChecked s.genres (sanitizedBook pid b).genre)
            (sanitizedBook pid b) (bookUpdateErrors b)) := by
  simp [book_update_post, hne]

theorem genre_create_post_error_branch (s : Store) (fid bn : String)
    (hne : (checkRequired "name" bn "Genre name required").isEmpty = false) :
    genre_create_post s fid bn
      = (s, GenreCreateRes.renderForm { _id := fid, name := escape (jsTrim bn) }
            (checkRequired "name" bn "Genre name required")) := by
  simp [genre_create_post, hne]

theorem genre_update_post_error_branch (s : Store) (pid bn : String)
    (hne : (checkRequired "name" bn "Genre name required").isEmpty = false) :
    genre_update_post s pid bn
      = (s, GenreUpdateRes.renderForm { _id := pid, name := escape (jsTrim bn) }
            (checkRequired "name" bn "Genre name required")) := by
  simp [genre_update_post, hne]

theorem book_create_post_blocks_of_mem (s : Store) (fid : String) (b : BookBody)
    (f m : String) (hmem : ({ path := f, msg := m } : VError) ∈ bookCreateErrors b) :
    (book_create_post s fid b).1 = s
    ∧ (book_create_post s fid b).2.isRenderForm = true
    ∧ hasFieldError (book_create_post s fid b).2.errorList f = true := by
  rw [book_create_post_error_branch s fid b (isEmpty_false_of_mem hmem)]
  exact ⟨rfl, rfl, hasFieldError_of_mem hmem⟩

theorem book_update_post_blocks_of_mem (s : Store) (pid : String) (b : BookBody)
    (f m : String) (hmem : ({ path := f, msg := m } : VError) ∈ bookUpdateErrors b) :
    (book_update_post s pid b).1 = s
    ∧ (book_update_post s pid b).2.isRenderForm = true
    ∧ hasFieldError (book_update_post s pid b).2.errorList f = true := by
  rw [book_update_post_error_branch s pid b (isEmpty_false_of_mem hmem)]
  exact ⟨rfl, rfl, hasFieldError_of_mem hmem⟩

/-- Claim C4: for every create or update POST (Book or Genre) in which a
required field is empty after trimming, the handler re-renders the
originating form with a field-level error entry for that field, and the
store is left unchanged. -/
theorem required_field_empty_blocks_persist :
    (∀ (s : Store) (fid : String) (b : BookBody) (f : String),
        f ∈ ["title", "author", "summary", "isbn"] → jsTrim (b.field f) = "" →
        (book_create_post s fid b).1 = s
        ∧ (book_create_post s fid b).2.isRenderForm = true
        ∧ hasFieldError (book_create_post s fid b).2.errorList f = true)
    ∧ (∀ (s : Store) (pid : String) (b : BookBody) (f : String),
        f ∈ ["title", "author", "summary", "isbn"] → jsTrim (b.field f) = "" →
        (book_update_post s pid b).1 = s
        ∧ (book_update_post s pid b).2.isRenderForm = true
        ∧ hasFieldError (book_update_post s pid b).2.errorList f = true)
    ∧ (∀ (s : Store) (fid bn : String), jsTrim bn = "" →
        (genre_create_post s fid bn).1 = s
        ∧ (genre_create_post s fid bn).2.isRenderForm = true
        ∧ hasFieldError (genre_create_post s fid bn).2.errorList "name" = true)
    ∧ (∀ (s : Store) (pid bn : String), jsTrim bn = "" →
        (genre_update_post s pid bn).1 = s
        ∧ (genre_update_post s pid bn).2.isRenderForm = true
        ∧ hasFieldError (genre_update_post s pid bn).2.errorList "name" = true) := by
  refine ⟨?_, ?_, ?_, ?_⟩
  · intro s fid b f hf hempty
    simp only [List.mem_cons, List.not_mem_nil, or_false] at hf
    rcases hf with rfl | rfl | rfl | rfl
    · have h : jsTrim b.title = "" := hempty
      exact book_create_post_blocks_of_mem s fid b "title" "Title must not be empty."
        (by simp [bookCreateErrors, checkRequired, h])
    · have h : jsTrim b.author = "" := hempty
      exact book_create_post_blocks_of_mem s fid b "author" "Author must not be empty."
        (by simp [bookCreateErrors, checkRequired, h])
    · have h : jsTrim b.summary = "" := hempty
      exact book_create_post_blocks_of_mem s fid b "summary" "Summary must not be empty"
        (by simp [bookCreateErrors, checkRequired, h])
    · have h : jsTrim b.isbn = "" := hempty
      exact book_create_post_blocks_of_mem s fid b "isbn" "ISBN must not be empty"
        (by simp [bookCreateErrors, checkRequired, h])
  · intro s pid b f hf hempty
    simp only [List.mem_cons, List.not_mem_nil, or_false] at hf
    rcases hf with rfl | rfl | rfl | rfl
    · have h : jsTrim b.title = "" := hempty
      exact book_update_post_blocks_of_mem s pid b "title" "Title must not be empty"
        (by simp [bookUpdateErrors, checkRequired, h])
    · have h : jsTrim b.author = "" := hempty
      exact book_update_post_blocks_of_mem s pid b "author" "Author must not be empty"
        (by simp [bookUpdateErrors, checkRequired, h])
    · have h : jsTrim b.summary = "" := hempty
      exact book_update_post_blocks_of_mem s pid b "summary" "Summary must not be empty"
        (by simp [bookUpdateErrors, checkRequired, h])
    · have h : jsTrim b.isbn = "" := hempty
      exact book_update_post_blocks_of_mem s pid b "isbn" "ISBN must not be empty"
        (by simp [bookUpdateErrors, checkRequired, h])
  · intro s fid bn h
    have hmem : ({ path := "name", msg := "Genre name required" } : VError)
        ∈ checkRequired "name" bn "Genre name required" := by
      simp [checkRequired, h]
    rw [genre_create_post_error_branch s fid bn (isEmpty_false_of_mem hmem)]
    exact ⟨rfl, rfl, hasFieldError_of_mem hmem⟩
  · intro s pid bn h
    have hmem : ({ path := "name", msg := "Genre name required" } : VError)
        ∈ checkRequired "name" bn "Genre name required" := by
      simp [checkRequired, h]
    rw [genre_update_post_error_branch s pid bn (isEmpty_false_of_mem hmem)]
    exact ⟨rfl, rfl, hasFieldError_of_mem hmem⟩

/-- Claim C4 witness: a book create whose title is blank re-renders the
form with a `title` error and leaves the sample store unchanged. -/
theorem required_field_empty_blocks_persist_witness :
    (book_create_post sampleStore "b9" blankTitleBody).1 = sampleStore
    ∧ (book_create_post sampleStore "b9" blankTitleBody).2.isRenderForm = true
    ∧ hasFieldError (book_create_post sampleStore "b9" blankTitleBody).2.errorList "title"
        = true :=
  required_field_empty_blocks_persist.1 sampleStore "b9" blankTitleBody "title"
    (by decide) (by decide)

/-! ## Replace-then-find lemmas for the update flows -/

theorem find?_books_replace (pid : String) (nb : Book) (hnb : nb._id = pid) :
    ∀ l : List Book, (l.find? (fun b => b._id = pid)).isSome = true →
      (l.map (fun b0 => if b0._id = pid then nb else b0)).find? (fun b => b._id = pid)
        = some nb := by
  intro l
  induction l with
  | nil => intro h; simp at h
  | cons hd tl ih =>
      intro h
      by_cases hh : hd._id = pid
      · simp only [List.map_cons, if_pos hh]
        rw [List.find?_cons_of_pos]
        simp [hnb]
      · simp only [List.map_cons, if_neg hh]
        rw [List.find?_cons_of_neg _ (by simp [hh])]
        apply ih
        rw [List.find?_cons_of_neg _ (by simp [hh])] at h
        exact h

theorem find?_genres_replace (pid : String) (ng : Genre) (hng : ng._id = pid) :
    ∀ l : List Genre, (l.find? (fun g => g._id = pid)).isSome = true →
      (l.map (fun g0 => if g0._id = pid then ng else g0)).find? (fun g => g._id = pid)
        = some ng := by
  intro l
  induction l with
  | nil => intro h; simp at h
  | cons hd tl ih =>
      intro h
      by_cases hh : hd._id = pid
      · simp only [List.map_cons, if_pos hh]
        rw [List.find?_cons_of_pos]
        simp [hng]
      · simp only [List.map_cons, if_neg hh]
        rw [List.find?_cons_of_neg _ (by simp [hh])]
        apply ih
        rw [List.find?_cons_of_neg _ (by simp [hh])] at h
        exact h

/-- Claim C5: for every update POST (Book or Genre) with all fields
valid and the URL path identifier present in the store, the persisted
entity keeps that identifier: fetching by the same identifier afterwards
returns the newly submitted (sanitized) field values, and no document is
added or dropped. -/
theorem update_post_preserves_identifier :
    (∀ (s : Store) (pid : String) (b : BookBody),
        (bookUpdateErrors b).isEmpty = true →
        (findBook s pid).isSome = true →
        findBook (book_update_post s pid b).1 pid = some (sanitizedBook pid b)
        ∧ (book_update_post s pid b).1.books.length = s.books.length)
    ∧ (∀ (s : Store) (pid bn : String),
        ¬ jsTrim bn = "" →
        (findGenre s pid).isSome = true →
        findGenre (genre_update_post s pid bn).1 pid
            = some { _id := pid, name := escape (jsTrim bn) }
        ∧ (genre_update_post s pid bn).1.genres.length = s.genres.length) := by
  constructor
  · intro s pid b he hs
    obtain ⟨old, hold⟩ := Option.isSome_iff_exists.mp hs
    have hbooks : (book_update_post s pid b).1.books
        = s.books.map (fun b0 => if b0._id = pid then sanitizedBook pid b else b0) := by
      simp [book_update_post, he, hold]
    constructor
    · simp only [findBook, hbooks]
      exact find?_books_replace pid _ rfl s.books hs
    · rw [hbooks]
      simp
  · intro s pid bn hv hs
    have hgen : (genre_update_post s pid bn).1.genres
        = s.genres.map
            (fun g0 => if g0._id = pid
              then ({ _id := pid, name := escape (jsTrim bn) } : Genre) else g0) := by
      simp [genre_update_post, checkRequired, hv]
    constructor
    · simp only [findGenre, hgen]
      exact find?_genres_replace pid _ rfl s.genres hs
    · rw [hgen]
      simp

/-- Claim C5 witness: updating Book `b1` of the sample store with valid
fields keeps identifier `b1` and stores the submitted values. -/
theorem update_post_preserves_identifier_witness :
    findBook (book_update_post sampleStore "b1" validBody).1 "b1"
        = some (sanitizedBook "b1" validBody)
    ∧ (book_update_post sampleStore "b1" validBody).1.books.length
        = sampleStore.books.length :=
  update_post_preserves_identifier.1 sampleStore "b1" validBody (by decide) (by decide)

/-- Claim C6: for every Book create or update POST that fails
validation, the handler re-renders the form with the re-fetched Author
list, the re-fetched Genre list in which every Genre whose identifier
occurs in the submitted (sanitized) genre selection is marked checked,
the sanitized submitted values and the field-level error list. -/
theorem book_post_validation_failure_rerenders :
    (∀ (s : Store) (fid : String) (b : BookBody),
        (bookCreateErrors b).isEmpty = false →
        (book_create_post s fid b).1 = s
        ∧ (book_create_post s fid b).2
            = BookCreateRes.renderForm s.authors
                (markChecked s.genres (sanitizedBook fid b).genre)
                (sanitizedBook fid b) (bookCreateErrors b)
        ∧ ∀ g ∈ s.genres, ((sanitizedBook fid b).genre).contains g._id = true →
            ({ genre := g, checked := true } : CheckedGenre)
              ∈ markChecked s.genres (sanitizedBook fid b).genre)
    ∧ (∀ (s : Store) (pid : String) (b : BookBody),
        (bookUpdateErrors b).isEmpty = false →
        (book_update_post s pid b).1 = s
        ∧ (book_update_post s pid b).2
            = BookUpdateRes.renderForm s.authors
                (markChecked s.genres (sanitizedBook pid b).genre)
                (sanitizedBook pid b) (bookUpdateErrors b)
        ∧ ∀ g ∈ s.genres, ((sanitizedBook pid b).genre).contains g._id = true →
            ({ genre := g, checked := true } : CheckedGenre)
              ∈ markChecked s.genres (sanitizedBook pid b).genre) := by
  constructor
  · intro s fid b hne
    refine ⟨?_, ?_, ?_⟩
    · rw [book_create_post_error_branch s fid b hne]
    · rw [book_create_post_error_branch s fid b hne]
    · intro g hg hcont
      simp only [markChecked, List.mem_map]
      exact ⟨g, hg, by rw [hcont]⟩
  · intro s pid b hne
    refine ⟨?_, ?_, ?_⟩
    · rw [book_update_post_error_branch s pid b hne]
    · rw [book_update_post_error_branch s pid b hne]
    · intro g hg hcont
      simp only [markChecked, List.mem_map]
      exact ⟨g, hg, by rw [hcont]⟩

/-- Claim C6 witness: a blank-title create against the sample store
leaves it unchanged, and the selected genre `g2` is marked checked. -/
theorem book_post_validation_failure_rerenders_witness :
    (book_create_post sampleStore "b9" blankTitleBody).1 = sampleStore
    ∧ ({ genre := { _id := "g2", name := "Fantasy" }, checked := true } : CheckedGenre)
        ∈ markChecked sampleStore.genres (sanitizedBook "b9" blankTitleBody).genre :=
  ⟨(book_post_validation_failure_rerenders.1 sampleStore "b9" blankTitleBody (by decide)).1,
   (book_post_validation_failure_rerenders.1 sampleStore "b9" blankTitleBody (by decide)).2.2
     { _id := "g2", name := "Fantasy" } (by decide) (by decide)⟩

/-- Claim C10: the success branch of Book update POST is safe exactly
under the precondition that the URL path identifier resolves to a stored
Book: when it does, the handler never dereferences a null update result;
and there is a concrete input with all fields valid whose identifier is
absent, on which the update yields null and the handler reads `.url` off
it. -/
theorem book_update_post_null_url_deref :
    (∀ (s : Store) (pid : String) (b : BookBody),
        (findBook s pid).isSome = true →
        (book_update_post s pid b).2 ≠ BookUpdateRes.nullUrlDeref)
    ∧ ((bookUpdateErrors validBody).isEmpty = true
        ∧ findBook emptyStore "b1" = none
        ∧ (book_update_post emptyStore "b1" validBody).2 = BookUpdateRes.nullUrlDeref) := by
  constructor
  · intro s pid b hs
    obtain ⟨old, hold⟩ := Option.isSome_iff_exists.mp hs
    by_cases he : (bookUpdateErrors b).isEmpty = true
    · simp [book_update_post, he, hold]
    · simp [book_update_post, he]
  · exact ⟨by decide, by decide, by decide⟩

/-- Claim C10 witness: with Book `b1` present in the sample store, the
valid update POST does not hit the null dereference. -/
theorem book_update_post_null_url_deref_witness :
    (book_update_post sampleStore "b1" validBody).2 ≠ BookUpdateRes.nullUrlDeref :=
  book_update_post_null_url_deref.1 sampleStore "b1" validBody (by decide)

end LocalLibrary
